import Mathlib

/-!
Verification development for the tasks CRUD API
(`src/routes/tasks.routes.ts`, `src/middleware/error-handler.ts`,
`src/db/schemas/tasks.schema.ts`).

The request pipeline is shallowly embedded: request bodies are JSON
objects (association lists of key/value pairs), the zod schemas become
parsers returning either a validated value or the list of issue
messages, the store is a list of task rows, and each route handler is a
total function from store and request to an HTTP response (and the new
store, for mutations).  Error control flow mirrors the source: handlers
either short-circuit in the validator middleware or raise an `ApiError`
style value that the single global `errorHandler` shapes into the
uniform error envelope.
-/

namespace TasksApi

/-- Task status enum, from `taskStatusEnum` in `tasks.schema.ts`. -/
inductive Status
  | todo
  | in_progress
  | done
deriving DecidableEq

/-- Task priority enum, from `taskPriorityEnum` in `tasks.schema.ts`. -/
inductive Priority
  | low
  | medium
  | high
deriving DecidableEq

/-- A row of the `tasks` table (`tasks.schema.ts`): uuid primary key,
required title, nullable description, status and priority enums, and the
two audit timestamps (modelled as natural numbers, milliseconds). -/
structure Task where
  id : String
  title : String
  description : Option String
  status : Status
  priority : Priority
  createdAt : Nat
  updatedAt : Nat
deriving DecidableEq

/-- JSON scalar values as they appear in request bodies. -/
inductive Json
  | null
  | str (s : String)
  | num (n : Int)
  | boolean (b : Bool)
deriving DecidableEq

/-- A JSON object body: an association list from keys to values
(object keys are unique in JavaScript; lookup takes the first match). -/
abbrev Body := List (String × Json)

/-- Key lookup in a JSON object body. -/
def lookupKey (b : Body) (k : String) : Option Json :=
  (b.find? (fun p => p.1 == k)).map (fun p => p.2)

/-- Conversion used by the zod enum checks for `status`. -/
def statusOfString : String → Option Status
  | "todo" => some .todo
  | "in_progress" => some .in_progress
  | "done" => some .done
  | _ => none

/-- Conversion used by the zod enum checks for `priority`. -/
def priorityOfString : String → Option Priority
  | "low" => some .low
  | "medium" => some .medium
  | "high" => some .high
  | _ => none

/-- String form of a status, as sent by clients. -/
def statusToString : Status → String
  | .todo => "todo"
  | .in_progress => "in_progress"
  | .done => "done"

/-- String form of a priority, as sent by clients. -/
def priorityToString : Priority → String
  | .low => "low"
  | .medium => "medium"
  | .high => "high"

/-- Result of `createTaskSchema.parse`: title validated, description kept
with its three states (absent, explicit null, string), defaults applied to
`status` and `priority`. -/
structure CreateInput where
  title : String
  description : Option (Option String)
  status : Status
  priority : Priority
deriving DecidableEq

/-- Result of `updateTaskSchema.parse`: every field optional, absence
meaning the key was not supplied; no defaults applied. -/
structure UpdateInput where
  title : Option String
  description : Option (Option String)
  status : Option Status
  priority : Option Priority
deriving DecidableEq

/-- Number of keys present in a parsed update body — the quantity the
handler inspects via `Object.keys(body).length`. -/
def UpdateInput.numKeys (u : UpdateInput) : Nat :=
  (if u.title.isSome then 1 else 0) +
  (if u.description.isSome then 1 else 0) +
  (if u.status.isSome then 1 else 0) +
  (if u.priority.isSome then 1 else 0)

/-- The `title` field of `createTaskSchema`:
`z.string().min(1, "Title is required").max(256, ...)` — required, and the
length bounds are on the string as supplied (the schema has no trim step). -/
def parseTitleRequired (b : Body) : Except String String :=
  match lookupKey b "title" with
  | none => .error "Required"
  | some (.str s) =>
      if s.length < 1 then .error "Title is required"
      else if 256 < s.length then .error "Title must be 256 characters or less"
      else .ok s
  | some _ => .error "Expected string"

/-- The `title` field of `updateTaskSchema`: same bounds, but optional. -/
def parseTitleOptional (b : Body) : Except String (Option String) :=
  match lookupKey b "title" with
  | none => .ok none
  | some (.str s) =>
      if s.length < 1 then .error "Title is required"
      else if 256 < s.length then .error "Title must be 256 characters or less"
      else .ok (some s)
  | some _ => .error "Expected string"

/-- The `description` field: `z.string().nullable().optional()`. -/
def parseDescriptionField (b : Body) : Except String (Option (Option String)) :=
  match lookupKey b "description" with
  | none => .ok none
  | some .null => .ok (some none)
  | some (.str s) => .ok (some (some s))
  | some _ => .error "Expected string"

/-- The `status` field: `z.enum(["todo", "in_progress", "done"])`,
optional (default handled by the caller for the create schema). -/
def parseStatusField (b : Body) : Except String (Option Status) :=
  match lookupKey b "status" with
  | none => .ok none
  | some (.str s) =>
      match statusOfString s with
      | some v => .ok (some v)
      | none => .error "Invalid enum value"
  | some _ => .error "Invalid enum value"

/-- The `priority` field: `z.enum(["low", "medium", "high"])`, optional. -/
def parsePriorityField (b : Body) : Except String (Option Priority) :=
  match lookupKey b "priority" with
  | none => .ok none
  | some (.str s) =>
      match priorityOfString s with
      | some v => .ok (some v)
      | none => .error "Invalid enum value"
  | some _ => .error "Invalid enum value"

/-- Issue messages contributed by one field check. -/
def issuesOf {α : Type} : Except String α → List String
  | .ok _ => []
  | .error e => [e]

/-- `createTaskSchema.safeParse`: all four field checks run and their
issues are collected; on success the `status` and `priority` defaults
(`todo`, `medium`) are applied.  Keys other than the four declared ones
are stripped (zod object schemas discard unknown keys). -/
def parseCreate (b : Body) : Except (List String) CreateInput :=
  match parseTitleRequired b, parseDescriptionField b,
        parseStatusField b, parsePriorityField b with
  | .ok t, .ok d, .ok st, .ok pr =>
      .ok { title := t, description := d,
            status := st.getD .todo, priority := pr.getD .medium }
  | rt, rd, rs, rp =>
      .error (issuesOf rt ++ issuesOf rd ++ issuesOf rs ++ issuesOf rp)

/-- `updateTaskSchema.safeParse`: all fields optional, no defaults,
unknown keys stripped. -/
def parseUpdate (b : Body) : Except (List String) UpdateInput :=
  match parseTitleOptional b, parseDescriptionField b,
        parseStatusField b, parsePriorityField b with
  | .ok t, .ok d, .ok st, .ok pr =>
      .ok { title := t, description := d, status := st, priority := pr }
  | rt, rd, rs, rp =>
      .error (issuesOf rt ++ issuesOf rd ++ issuesOf rs ++ issuesOf rp)

/-- What JavaScript `Number(...)` coercion produced for a query
parameter, as seen by `z.coerce.number()`: not a number at all, an
integer, or a finite non-integer (the payload of the non-integer case is
irrelevant to the integrality check that rejects it). -/
inductive JsNum
  | nan
  | intVal (n : Int)
  | nonIntVal
deriving DecidableEq

/-- Raw query parameters of `GET /api/tasks` before validation:
`status` and `priority` arrive as strings, `limit` and `offset` as the
result of numeric coercion (absent keys are `none`). -/
structure QueryParams where
  status : Option String
  priority : Option String
  limit : Option JsNum
  offset : Option JsNum
deriving DecidableEq

/-- Validated query of `GET /api/tasks` (`querySchema.parse`). -/
structure QueryInput where
  status : Option Status
  priority : Option Priority
  limit : Int
  offset : Int
deriving DecidableEq

/-- The `status` query filter: optional enum. -/
def parseStatusParam (v : Option String) : Except String (Option Status) :=
  match v with
  | none => .ok none
  | some s =>
      match statusOfString s with
      | some st => .ok (some st)
      | none => .error "Invalid enum value"

/-- The `priority` query filter: optional enum. -/
def parsePriorityParam (v : Option String) : Except String (Option Priority) :=
  match v with
  | none => .ok none
  | some s =>
      match priorityOfString s with
      | some pr => .ok (some pr)
      | none => .error "Invalid enum value"

/-- The `limit` parameter:
`z.coerce.number().int().min(1).max(100).optional().default(20)`. -/
def parseLimitParam (v : Option JsNum) : Except String Int :=
  match v with
  | none => .ok 20
  | some .nan => .error "Expected number, received nan"
  | some .nonIntVal => .error "Expected integer, received float"
  | some (.intVal n) =>
      if n < 1 then .error "Number must be greater than or equal to 1"
      else if 100 < n then .error "Number must be less than or equal to 100"
      else .ok n

/-- The `offset` parameter:
`z.coerce.number().int().min(0).optional().default(0)`. -/
def parseOffsetParam (v : Option JsNum) : Except String Int :=
  match v with
  | none => .ok 0
  | some .nan => .error "Expected number, received nan"
  | some .nonIntVal => .error "Expected integer, received float"
  | some (.intVal n) =>
      if n < 0 then .error "Number must be greater than or equal to 0"
      else .ok n

/-- `querySchema.safeParse`: all four checks run, issues collected. -/
def parseQuery (q : QueryParams) : Except (List String) QueryInput :=
  match parseStatusParam q.status, parsePriorityParam q.priority,
        parseLimitParam q.limit, parseOffsetParam q.offset with
  | .ok st, .ok pr, .ok l, .ok o =>
      .ok { status := st, priority := pr, limit := l, offset := o }
  | rs, rp, rl, ro =>
      .error (issuesOf rs ++ issuesOf rp ++ issuesOf rl ++ issuesOf ro)

/-! ## The store

The backing store is the external Postgres database, reached through the
Drizzle/Neon gateway; only its schema and call sites live in this
repository.  It is modelled as a list of task rows.  The `id` column is
uuid-typed, so — as the repository documentation notes ("PostgreSQL
would error on invalid UUID; we catch it earlier") — a query comparing
it against a string that is not a syntactically well-formed uuid literal
is rejected by the store instead of returning an empty result.  That
rejection is modelled by `DbResult.storageFailure`; `pgUuidAccepts`
models acceptance of the canonical 8-4-4-4-12 hex layout (any version
and variant nibble, either letter case). -/

/-- Store state: the rows of the `tasks` table, in insertion order. -/
abbrev Store := List Task

/-- Hexadecimal digit test. -/
def isHexDigit (c : Char) : Bool :=
  c.isDigit || ('a' ≤ c && c ≤ 'f') || ('A' ≤ c && c ≤ 'F')

/-- Character check at index `i` of the canonical uuid layout: hyphens
at positions 8, 13, 18 and 23, hex digits elsewhere. -/
def pgUuidCharOk (cs : List Char) (i : Nat) : Bool :=
  if i == 8 || i == 13 || i == 18 || i == 23 then cs.getD i 'x' == '-'
  else isHexDigit (cs.getD i 'x')

/-- Uuid-literal acceptance of the store's uuid column: 36 characters in
the canonical hex layout. -/
def pgUuidAccepts (s : String) : Bool :=
  s.toList.length == 36 && (List.range 36).all (pgUuidCharOk s.toList)

/-- Character check at index `i` of the uuid-v4 regex of the `GET /:id`
handler: the canonical layout, with version nibble `4` at position 14
and variant nibble in 8, 9, a, b at position 19, case-insensitive. -/
def uuidV4CharOk (cs : List Char) (i : Nat) : Bool :=
  if i == 8 || i == 13 || i == 18 || i == 23 then cs.getD i 'x' == '-'
  else if i == 14 then cs.getD i 'x' == '4'
  else if i == 19 then
    cs.getD i 'x' == '8' || cs.getD i 'x' == '9' || cs.getD i 'x' == 'a' ||
    cs.getD i 'x' == 'b' || cs.getD i 'x' == 'A' || cs.getD i 'x' == 'B'
  else isHexDigit (cs.getD i 'x')

/-- The uuid-v4 regex of the `GET /:id` handler: 8-4-4-4-12 hex groups,
version nibble `4`, variant nibble in 8, 9, a, b, case-insensitive. -/
def uuidRegexTest (s : String) : Bool :=
  s.toList.length == 36 && (List.range 36).all (uuidV4CharOk s.toList)

/-- Outcome of one storage round trip. -/
inductive DbResult (α : Type)
  | ok (a : α)
  | storageFailure

/-- `SELECT ... WHERE id = $1 LIMIT 1` through the gateway. -/
def dbSelectById (s : Store) (id : String) : DbResult (Option Task) :=
  if pgUuidAccepts id then .ok (s.find? (fun t => t.id == id))
  else .storageFailure

/-- The row produced by `INSERT INTO tasks ... RETURNING *`: the server
assigns the uuid and sets both audit timestamps to the same transaction
timestamp; an absent description column defaults to null. -/
def insertTask (input : CreateInput) (newId : String) (now : Nat) : Task :=
  { id := newId
    title := input.title
    description := input.description.getD none
    status := input.status
    priority := input.priority
    createdAt := now
    updatedAt := now }

/-- Applying `db.update(tasks).set(spread of body with updatedAt now)`:
supplied fields overwrite, absent fields are untouched, `updatedAt` is
stamped. -/
def applyUpdate (u : UpdateInput) (now : Nat) (t : Task) : Task :=
  { id := t.id
    title := u.title.getD t.title
    description := match u.description with
      | none => t.description
      | some d => d
    status := u.status.getD t.status
    priority := u.priority.getD t.priority
    createdAt := t.createdAt
    updatedAt := now }

/-- `UPDATE ... WHERE id = $1 ... RETURNING *`: every matching row is
updated; the handler destructures the first returned row. -/
def dbUpdate (s : Store) (id : String) (u : UpdateInput) (now : Nat) :
    DbResult (Option Task × Store) :=
  if pgUuidAccepts id then
    .ok ((s.find? (fun t => t.id == id)).map (applyUpdate u now),
         s.map (fun t => if t.id == id then applyUpdate u now t else t))
  else .storageFailure

/-- `DELETE ... WHERE id = $1 RETURNING *`: every matching row is
removed; the handler destructures the first returned row. -/
def dbDelete (s : Store) (id : String) : DbResult (Option Task × Store) :=
  if pgUuidAccepts id then
    .ok (s.find? (fun t => t.id == id), s.filter (fun t => !(t.id == id)))
  else .storageFailure

/-! ## Responses and the error translator -/

/-- The `error` object of the uniform error envelope. -/
structure ErrorBody where
  message : String
  code : String
deriving DecidableEq

/-- Shape of an HTTP response body produced by the app.  `data` and
`dataList` are the success envelopes; `errEnvelope` is the uniform error
envelope shaped by the global `errorHandler`; `zodIssues` is the body
the validator middleware returns on a failed schema parse (its default
failure hook responds directly with the safeParse result — success
false plus the zod error with its issue list — and never reaches the
global error handler). -/
inductive RespBody
  | data (t : Task)
  | dataList (ts : List Task) (limit offset : Int) (count : Nat)
  | errEnvelope (e : ErrorBody)
  | zodIssues (issues : List String)
deriving DecidableEq

/-- Whether a body has the uniform error-envelope shape. -/
def RespBody.isEnvelope : RespBody → Bool
  | .errEnvelope _ => true
  | _ => false

/-- Whether a body is a validator-middleware failure body. -/
def RespBody.isZodIssues : RespBody → Bool
  | .zodIssues _ => true
  | _ => false

/-- Whether a body is a success envelope. -/
def RespBody.isSuccess : RespBody → Bool
  | .data _ => true
  | .dataList _ _ _ _ => true
  | _ => false

/-- An HTTP response: status code and body. -/
structure Response where
  status : Nat
  body : RespBody
deriving DecidableEq

/-- The tasks carried by a list response (empty for any other body). -/
def Response.listData (r : Response) : List Task :=
  match r.body with
  | .dataList ts _ _ _ => ts
  | _ => []

/-- The `ApiError` class of `error-handler.ts`: status code, message and
machine-readable code. -/
structure ApiError where
  statusCode : Nat
  message : String
  code : String
deriving DecidableEq

/-- An error reaching the global handler: either a thrown `ApiError` or
any other uncaught exception (a storage failure surfaces as the latter —
the Neon driver's errors are not `ApiError` instances). -/
inductive AppError
  | api (e : ApiError)
  | unknown (message : String)
deriving DecidableEq

/-- The global `errorHandler` of `error-handler.ts`: a thrown `ApiError`
keeps its status, message and code; anything else becomes a 500 with a
generic message and code `INTERNAL_ERROR`. -/
def errorHandler : AppError → Response
  | .api e => ⟨e.statusCode, .errEnvelope ⟨e.message, e.code⟩⟩
  | .unknown _ => ⟨500, .errEnvelope ⟨"Internal Server Error", "INTERNAL_ERROR"⟩⟩

/-! ## Route handlers -/

/-- The `conditions` array of the list handler: a status fragment is
pushed if the filter is present, then a priority fragment likewise. -/
def listConditions (st : Option Status) (pr : Option Priority) :
    List (Task → Bool) :=
  (match st with
    | some v => [fun t => t.status == v]
    | none => []) ++
  (match pr with
    | some v => [fun t => t.priority == v]
    | none => [])

/-- `query.where(...)` composition of the list handler: no condition
leaves the query unfiltered, one condition is used alone, several are
combined with `and(...)`. -/
def applyWhere (conds : List (Task → Bool)) (rows : List Task) : List Task :=
  match conds with
  | [] => rows
  | [c] => rows.filter c
  | cs => rows.filter (fun t => cs.all (fun c => c t))

/-- `GET /api/tasks`: validate the query (failure short-circuits in the
validator middleware with HTTP 400 and the zod issue body), filter,
paginate with `LIMIT limit OFFSET offset`, and answer 200 with the rows
and the pagination meta. -/
def listTasks (s : Store) (q : QueryParams) : Response :=
  match parseQuery q with
  | .error issues => ⟨400, .zodIssues issues⟩
  | .ok qi =>
      let rows := applyWhere (listConditions qi.status qi.priority) s
      let page := (rows.drop qi.offset.toNat).take qi.limit.toNat
      ⟨200, .dataList page qi.limit qi.offset page.length⟩

/-- Body of the `GET /api/tasks/:id` handler, before error translation:
uuid-v4 regex check (400 INVALID_ID), then the select (404 when no row). -/
def getTaskCore (s : Store) (id : String) : Except AppError Response :=
  if uuidRegexTest id then
    match dbSelectById s id with
    | .storageFailure => .error (.unknown "storage failure")
    | .ok none => .error (.api ⟨404, "Task not found", "TASK_NOT_FOUND"⟩)
    | .ok (some t) => .ok ⟨200, .data t⟩
  else .error (.api ⟨400, "Invalid task ID format", "INVALID_ID"⟩)

/-- `GET /api/tasks/:id`: the handler with thrown errors shaped by the
global error handler. -/
def getTask (s : Store) (id : String) : Response :=
  match getTaskCore s id with
  | .ok r => r
  | .error e => errorHandler e

/-- `POST /api/tasks`: validate the body (failure short-circuits in the
validator middleware), insert with server-assigned id and timestamps,
answer 201 with the inserted row. -/
def createTask (s : Store) (b : Body) (newId : String) (now : Nat) :
    Response × Store :=
  match parseCreate b with
  | .error issues => (⟨400, .zodIssues issues⟩, s)
  | .ok input =>
      let t := insertTask input newId now
      (⟨201, .data t⟩, s ++ [t])

/-- Body of the `PUT /api/tasks/:id` handler after schema validation,
before error translation: the `Object.keys(body).length === 0` check
throws 400 EMPTY_UPDATE before any storage access; then the update
(404 when no row matched). -/
def updateTaskCore (s : Store) (id : String) (u : UpdateInput) (now : Nat) :
    Except AppError (Response × Store) :=
  if u.numKeys == 0 then
    .error (.api ⟨400, "No fields to update", "EMPTY_UPDATE"⟩)
  else
    match dbUpdate s id u now with
    | .storageFailure => .error (.unknown "storage failure")
    | .ok (none, _) => .error (.api ⟨404, "Task not found", "TASK_NOT_FOUND"⟩)
    | .ok (some t, s2) => .ok (⟨200, .data t⟩, s2)

/-- `PUT /api/tasks/:id`: schema validation (short-circuit on failure),
then the handler body with thrown errors shaped by the global error
handler; a thrown error leaves the store unchanged. -/
def updateTask (s : Store) (id : String) (b : Body) (now : Nat) :
    Response × Store :=
  match parseUpdate b with
  | .error issues => (⟨400, .zodIssues issues⟩, s)
  | .ok u =>
      match updateTaskCore s id u now with
      | .ok rs => rs
      | .error e => (errorHandler e, s)

/-- Body of the `DELETE /api/tasks/:id` handler before error
translation: the delete (404 when no row matched). -/
def deleteTaskCore (s : Store) (id : String) :
    Except AppError (Response × Store) :=
  match dbDelete s id with
  | .storageFailure => .error (.unknown "storage failure")
  | .ok (none, _) => .error (.api ⟨404, "Task not found", "TASK_NOT_FOUND"⟩)
  | .ok (some t, s2) => .ok (⟨200, .data t⟩, s2)

/-- `DELETE /api/tasks/:id`: the handler with thrown errors shaped by
the global error handler; a thrown error leaves the store unchanged. -/
def deleteTask (s : Store) (id : String) : Response × Store :=
  match deleteTaskCore s id with
  | .ok rs => rs
  | .error e => (errorHandler e, s)

/-- Length of a string after removing leading and trailing whitespace —
the quantity the specification's "trimmed length" bound refers to.  (The
source schema bounds the raw length; this definition exists to compare
the two.) -/
def trimmedLength (s : String) : Nat :=
  (((s.toList.dropWhile Char.isWhitespace).reverse.dropWhile
      Char.isWhitespace).reverse).length

/-- The conjunction of the present list filters, as a single predicate —
the meaning claimed for the dynamically composed conditions. -/
def matchesFilters (st : Option Status) (pr : Option Priority) (t : Task) :
    Bool :=
  (match st with
    | some v => t.status == v
    | none => true) &&
  (match pr with
    | some v => t.priority == v
    | none => true)

/-- A store is well formed when every row's id is a server-generated
uuid-v4 string — the data-model invariant (ids come from
`gen_random_uuid()`). -/
def WfStore (s : Store) : Prop :=
  ∀ t ∈ s, uuidRegexTest t.id = true

/-- A request body supplying only the `status` field. -/
def statusOnlyBody (v : Status) : Body :=
  [("status", Json.str (statusToString v))]

/-- A sample stored row with a server-generated uuid-v4 id, used to
instantiate theorems at concrete inputs. -/
def sampleTask : Task :=
  { id := "aaaaaaaa-aaaa-4aaa-8aaa-aaaaaaaaaaaa"
    title := "Buy milk"
    description := none
    status := .todo
    priority := .medium
    createdAt := 0
    updatedAt := 0 }

/-- A second sample row, with both filterable fields set, used to
instantiate the list-filter theorems. -/
def sampleTask2 : Task :=
  { id := "bbbbbbbb-bbbb-4bbb-8bbb-bbbbbbbbbbbb"
    title := "Ship release"
    description := some "cut the tag"
    status := .todo
    priority := .high
    createdAt := 0
    updatedAt := 0 }

/-! ## Helper lemmas -/

/-- A character satisfying the uuid-v4 per-index check satisfies the
store's uuid-layout per-index check. -/
theorem pgUuidCharOk_of_v4 (cs : List Char) (i : Nat)
    (h : uuidV4CharOk cs i = true) : pgUuidCharOk cs i = true := by
  unfold uuidV4CharOk at h
  unfold pgUuidCharOk
  by_cases hd : (i == 8 || i == 13 || i == 18 || i == 23) = true
  · rw [if_pos hd] at h ⊢
    exact h
  · rw [if_neg hd] at h ⊢
    by_cases h14 : (i == 14) = true
    · rw [if_pos h14] at h
      rw [eq_of_beq h]
      decide
    · rw [if_neg h14] at h
      by_cases h19 : (i == 19) = true
      · rw [if_pos h19] at h
        simp only [Bool.or_eq_true, beq_iff_eq] at h
        rcases h with ((((h | h) | h) | h) | h) | h <;> rw [h] <;> decide
      · rw [if_neg h19] at h
        exact h

/-- A string matched by the handler's uuid-v4 regex is accepted by the
store's uuid column. -/
theorem pgUuidAccepts_of_uuidRegexTest {s : String}
    (h : uuidRegexTest s = true) : pgUuidAccepts s = true := by
  unfold uuidRegexTest at h
  unfold pgUuidAccepts
  simp only [Bool.and_eq_true, List.all_eq_true] at h ⊢
  exact ⟨h.1, fun i hi => pgUuidCharOk_of_v4 _ _ (h.2 i hi)⟩

/-- Searching for an id among the rows that survived deleting that id
finds nothing. -/
theorem find?_id_filter_out (s : Store) (id : String) :
    (s.filter (fun t => !(t.id == id))).find? (fun t => t.id == id) = none := by
  rw [List.find?_eq_none]
  intro a ha
  have h := (List.mem_filter.mp ha).2
  simp only [Bool.not_eq_true'] at h
  simp [h]

/-- A failed title check makes the whole create parse fail, and the
endpoint answer 400 with the validator body, leaving the store as it
was. -/
theorem createTask_title_error (s : Store) (b : Body) (newId : String)
    (now : Nat) (e : String) (h : parseTitleRequired b = .error e) :
    (createTask s b newId now).1.status = 400 ∧
    (createTask s b newId now).1.body.isZodIssues = true ∧
    (createTask s b newId now).2 = s := by
  unfold createTask parseCreate
  rw [h]
  exact ⟨rfl, rfl, rfl⟩

/-- A limit that fails its checks makes the whole query parse fail, and
the list endpoint answer 400 with the validator body. -/
theorem listTasks_limit_error (s : Store) (q : QueryParams) (e : String)
    (h : parseLimitParam q.limit = .error e) :
    (listTasks s q).status = 400 ∧ (listTasks s q).body.isZodIssues = true := by
  unfold listTasks parseQuery
  cases hs : parseStatusParam q.status <;>
    cases hp : parsePriorityParam q.priority <;>
    cases ho : parseOffsetParam q.offset <;>
    rw [h] <;> exact ⟨rfl, rfl⟩

/-- An offset that fails its checks makes the whole query parse fail,
and the list endpoint answer 400 with the validator body. -/
theorem listTasks_offset_error (s : Store) (q : QueryParams) (e : String)
    (h : parseOffsetParam q.offset = .error e) :
    (listTasks s q).status = 400 ∧ (listTasks s q).body.isZodIssues = true := by
  unfold listTasks parseQuery
  cases hs : parseStatusParam q.status <;>
    cases hp : parsePriorityParam q.priority <;>
    cases hl : parseLimitParam q.limit <;>
    rw [h] <;> exact ⟨rfl, rfl⟩

/-! ## Claim theorems -/

/-- C2: for every id and every body containing none of the recognized
fields (`title`, `description`, `status`, `priority`), the update
endpoint answers HTTP 400 with code `EMPTY_UPDATE` through the error
envelope, and — the check running before any storage access — it does so
with the store returned unchanged, for every store state (so a stored
task under that id is untouched and an empty update is never a no-op
success). -/
theorem empty_update_rejected_before_storage
    (s : Store) (id : String) (b : Body) (now : Nat)
    (ht : lookupKey b "title" = none)
    (hd : lookupKey b "description" = none)
    (hs : lookupKey b "status" = none)
    (hp : lookupKey b "priority" = none) :
    updateTask s id b now
      = (⟨400, .errEnvelope ⟨"No fields to update", "EMPTY_UPDATE"⟩⟩, s) := by
  unfold updateTask parseUpdate parseTitleOptional parseDescriptionField
    parseStatusField parsePriorityField
  rw [ht, hd, hs, hp]
  rfl

/-- Witness for C2: a body holding only an unrecognized key, against a
store holding one task, is rejected with `EMPTY_UPDATE` and the store is
unchanged. -/
theorem empty_update_rejected_before_storage_witness :
    updateTask [sampleTask] sampleTask.id [("foo", Json.num 1)] 5
      = (⟨400, .errEnvelope ⟨"No fields to update", "EMPTY_UPDATE"⟩⟩,
         [sampleTask]) :=
  empty_update_rejected_before_storage [sampleTask] sampleTask.id
    [("foo", Json.num 1)] 5 (by decide) (by decide) (by decide) (by decide)

/-- C7: the single-task endpoint checks the id against the uuid-v4
regex before any storage access — an id failing the regex yields
HTTP 400 with code `INVALID_ID` and message "Invalid task ID format",
for every store state; an id matching the regex that addresses no
stored row yields HTTP 404 with code `TASK_NOT_FOUND`. -/
theorem get_task_id_validation (s : Store) (id : String) :
    (uuidRegexTest id = false →
      getTask s id
        = ⟨400, .errEnvelope ⟨"Invalid task ID format", "INVALID_ID"⟩⟩) ∧
    (uuidRegexTest id = true → s.find? (fun t => t.id == id) = none →
      getTask s id
        = ⟨404, .errEnvelope ⟨"Task not found", "TASK_NOT_FOUND"⟩⟩) := by
  constructor
  · intro h
    unfold getTask getTaskCore
    rw [h]
    rfl
  · intro h hf
    unfold getTask getTaskCore dbSelectById
    rw [h, pgUuidAccepts_of_uuidRegexTest h, hf]
    rfl

/-- Witness for C7: `not-a-uuid` is rejected with `INVALID_ID` even when
a task exists, and a well-formed uuid-v4 absent from the store yields
`TASK_NOT_FOUND`. -/
theorem get_task_id_validation_witness :
    getTask [sampleTask] "not-a-uuid"
      = ⟨400, .errEnvelope ⟨"Invalid task ID format", "INVALID_ID"⟩⟩ ∧
    getTask [] "bbbbbbbb-bbbb-4bbb-9bbb-bbbbbbbbbbbb"
      = ⟨404, .errEnvelope ⟨"Task not found", "TASK_NOT_FOUND"⟩⟩ :=
  ⟨(get_task_id_validation [sampleTask] "not-a-uuid").1 (by decide),
   (get_task_id_validation [] "bbbbbbbb-bbbb-4bbb-9bbb-bbbbbbbbbbbb").2
     (by decide) (by decide)⟩

/-- C8 counterexample: the delete endpoint performs no id validation,
and the store's uuid-typed id column rejects a query against the
syntactically invalid id `not-a-uuid`; the rejection is not an
`ApiError`, so the global handler answers HTTP 500 with code
`INTERNAL_ERROR` — not 404 `TASK_NOT_FOUND` — refuting that 404 is the
sole failure code of the delete endpoint. -/
theorem delete_invalid_id_500_counterexample :
    (deleteTask [] "not-a-uuid").1
      = ⟨500, .errEnvelope ⟨"Internal Server Error", "INTERNAL_ERROR"⟩⟩ ∧
    (deleteTask [] "not-a-uuid").1.status ≠ 404 := by
  constructor
  · rfl
  · decide

/-- C8 as amended: for every id the store accepts as a uuid literal
(canonical 8-4-4-4-12 hex layout), an unsuccessful delete fails only
with HTTP 404 and code `TASK_NOT_FOUND`; an id the store rejects makes
the delete fail with HTTP 500 and code `INTERNAL_ERROR` instead. -/
theorem delete_failure_codes (s : Store) (id : String) :
    (pgUuidAccepts id = true →
      (deleteTask s id).1.status = 200 ∨
      (deleteTask s id).1
        = ⟨404, .errEnvelope ⟨"Task not found", "TASK_NOT_FOUND"⟩⟩) ∧
    (pgUuidAccepts id = false →
      (deleteTask s id).1
        = ⟨500, .errEnvelope ⟨"Internal Server Error", "INTERNAL_ERROR"⟩⟩) := by
  constructor
  · intro h
    unfold deleteTask deleteTaskCore dbDelete
    rw [h]
    cases hf : s.find? (fun t => t.id == id) with
    | none => right; rfl
    | some t => left; rfl
  · intro h
    unfold deleteTask deleteTaskCore dbDelete
    rw [h]
    rfl

/-- Witness for C8 as amended: a well-formed uuid absent from an empty
store deletes to 404 `TASK_NOT_FOUND`; a malformed id deletes to 500. -/
theorem delete_failure_codes_witness :
    ((deleteTask [] "cccccccc-cccc-1ccc-0ccc-cccccccccccc").1.status = 200 ∨
      (deleteTask [] "cccccccc-cccc-1ccc-0ccc-cccccccccccc").1
        = ⟨404, .errEnvelope ⟨"Task not found", "TASK_NOT_FOUND"⟩⟩) ∧
    (deleteTask [] "zzz").1
      = ⟨500, .errEnvelope ⟨"Internal Server Error", "INTERNAL_ERROR"⟩⟩ :=
  ⟨(delete_failure_codes [] "cccccccc-cccc-1ccc-0ccc-cccccccccccc").1
     (by decide),
   (delete_failure_codes [] "zzz").2 (by decide)⟩

/-- C6 counterexample: the create schema bounds the raw string length
(`min(1).max(256)` with no trim step), so a title consisting of a single
space — whose trimmed length is 0, outside the claimed 1–256 range — is
accepted with HTTP 201 instead of failing validation with 400. -/
theorem untrimmed_title_accepted_counterexample :
    trimmedLength " " = 0 ∧
    (createTask [] [("title", Json.str " ")]
        "11111111-1111-4111-8111-111111111111" 7).1.status = 201 ∧
    (createTask [] [("title", Json.str " ")]
        "11111111-1111-4111-8111-111111111111" 7).1.body.isSuccess = true := by
  exact ⟨by decide, rfl, rfl⟩

/-- C6 as amended: the required title is bounded by its raw (untrimmed)
length — absent, empty, or longer than 256 characters fails validation
with HTTP 400 before any storage access; description is optional and
nullable; status and priority default to `todo` and `medium`; a create
with only a title (or a title plus an explicit null description) answers
201 with description null, the defaults applied, and `createdAt` equal
to `updatedAt`. -/
theorem create_validation_and_defaults :
    (∀ (s : Store) (b : Body) (newId : String) (now : Nat),
      lookupKey b "title" = none →
      (createTask s b newId now).1.status = 400 ∧
      (createTask s b newId now).1.body.isZodIssues = true ∧
      (createTask s b newId now).2 = s) ∧
    (∀ (s : Store) (b : Body) (newId : String) (now : Nat) (t0 : String),
      lookupKey b "title" = some (.str t0) → t0.length < 1 →
      (createTask s b newId now).1.status = 400 ∧
      (createTask s b newId now).1.body.isZodIssues = true ∧
      (createTask s b newId now).2 = s) ∧
    (∀ (s : Store) (b : Body) (newId : String) (now : Nat) (t0 : String),
      lookupKey b "title" = some (.str t0) → 256 < t0.length →
      (createTask s b newId now).1.status = 400 ∧
      (createTask s b newId now).1.body.isZodIssues = true ∧
      (createTask s b newId now).2 = s) ∧
    (∀ (s : Store) (newId : String) (now : Nat) (ttl : String),
      1 ≤ ttl.length → ttl.length ≤ 256 →
      createTask s [("title", Json.str ttl)] newId now
        = (⟨201, .data ⟨newId, ttl, none, .todo, .medium, now, now⟩⟩,
           s ++ [⟨newId, ttl, none, .todo, .medium, now, now⟩])) ∧
    (∀ (s : Store) (newId : String) (now : Nat) (ttl : String),
      1 ≤ ttl.length → ttl.length ≤ 256 →
      createTask s [("title", Json.str ttl), ("description", Json.null)]
          newId now
        = (⟨201, .data ⟨newId, ttl, none, .todo, .medium, now, now⟩⟩,
           s ++ [⟨newId, ttl, none, .todo, .medium, now, now⟩])) := by
  refine ⟨?_, ?_, ?_, ?_, ?_⟩
  · intro s b newId now h
    refine createTask_title_error s b newId now "Required" ?_
    unfold parseTitleRequired
    rw [h]
  · intro s b newId now t0 h hlen
    refine createTask_title_error s b newId now "Title is required" ?_
    unfold parseTitleRequired
    simp only [h, if_pos hlen]
  · intro s b newId now t0 h hlen
    refine createTask_title_error s b newId now
      "Title must be 256 characters or less" ?_
    unfold parseTitleRequired
    simp only [h, if_neg (show ¬t0.length < 1 by omega), if_pos hlen]
  · intro s newId now ttl hlo hhi
    have h1 : parseTitleRequired [("title", Json.str ttl)] = .ok ttl := by
      unfold parseTitleRequired
      have hk : lookupKey [("title", Json.str ttl)] "title"
          = some (.str ttl) := rfl
      simp only [hk, if_neg (show ¬ttl.length < 1 by omega),
        if_neg (show ¬256 < ttl.length by omega)]
    have hC : parseCreate [("title", Json.str ttl)]
        = .ok ⟨ttl, none, .todo, .medium⟩ := by
      unfold parseCreate
      rw [h1]
      rfl
    unfold createTask
    rw [hC]
    rfl
  · intro s newId now ttl hlo hhi
    have h1 : parseTitleRequired
        [("title", Json.str ttl), ("description", Json.null)] = .ok ttl := by
      unfold parseTitleRequired
      have hk : lookupKey [("title", Json.str ttl), ("description", Json.null)]
          "title" = some (.str ttl) := rfl
      simp only [hk, if_neg (show ¬ttl.length < 1 by omega),
        if_neg (show ¬256 < ttl.length by omega)]
    have hC : parseCreate [("title", Json.str ttl), ("description", Json.null)]
        = .ok ⟨ttl, some none, .todo, .medium⟩ := by
      unfold parseCreate
      rw [h1]
      rfl
    unfold createTask
    rw [hC]
    rfl

/-- Witness for C6 as amended: a missing title is rejected with the
validator body, and a one-key create with title "Buy milk" persists the
defaults with both timestamps equal. -/
theorem create_validation_and_defaults_witness :
    ((createTask [sampleTask] [("x", Json.num 3)] "id9" 4).1.status = 400 ∧
      (createTask [sampleTask] [("x", Json.num 3)] "id9" 4).1.body.isZodIssues
        = true ∧
      (createTask [sampleTask] [("x", Json.num 3)] "id9" 4).2 = [sampleTask]) ∧
    createTask [] [("title", Json.str "Buy milk")]
        "11111111-1111-4111-8111-111111111111" 9
      = (⟨201, .data ⟨"11111111-1111-4111-8111-111111111111", "Buy milk",
            none, .todo, .medium, 9, 9⟩⟩,
         [⟨"11111111-1111-4111-8111-111111111111", "Buy milk",
            none, .todo, .medium, 9, 9⟩]) :=
  ⟨create_validation_and_defaults.1 [sampleTask] [("x", Json.num 3)] "id9" 4
     (by decide),
   create_validation_and_defaults.2.2.2.1 [] "11111111-1111-4111-8111-111111111111"
     9 "Buy milk" (by decide) (by decide)⟩

/-- C1 counterexample: a create body rejected by the validation schema
(here: no title) is answered directly by the validator middleware with
HTTP 400 and the zod issue body — a shape without the
message-and-code error object and not produced by the global error
translator — refuting that every error path returns the
success-false/message/code envelope. -/
theorem validation_error_body_shape_counterexample :
    (createTask [] [] "11111111-1111-4111-8111-111111111111" 0).1.status
      = 400 ∧
    (createTask [] [] "11111111-1111-4111-8111-111111111111" 0).1.body
      = .zodIssues ["Required"] ∧
    (createTask [] [] "11111111-1111-4111-8111-111111111111" 0).1.body.isEnvelope
      = false := by
  exact ⟨rfl, rfl, rfl⟩

/-- C1 as amended: every error raised inside a handler (invalid id,
not-found, empty update, storage failure, any uncaught exception) is
shaped by the single global translator into the
success-false/message/code envelope — each endpoint's non-success
response is either the image of `errorHandler` or, exactly for a body
or query rejected by a validation schema, the HTTP 400 zod-issue body
produced by the validator middleware, which bypasses the translator. -/
theorem error_response_shapes :
    (∀ e, (errorHandler e).body.isEnvelope = true) ∧
    (∀ (s : Store) (id : String),
      (getTask s id).body.isSuccess = true ∨
      ∃ e, getTask s id = errorHandler e) ∧
    (∀ (s : Store) (q : QueryParams),
      (listTasks s q).body.isSuccess = true ∨
      ((listTasks s q).status = 400 ∧
        (listTasks s q).body.isZodIssues = true)) ∧
    (∀ (s : Store) (b : Body) (newId : String) (now : Nat),
      (createTask s b newId now).1.body.isSuccess = true ∨
      ((createTask s b newId now).1.status = 400 ∧
        (createTask s b newId now).1.body.isZodIssues = true)) ∧
    (∀ (s : Store) (id : String) (b : Body) (now : Nat),
      (updateTask s id b now).1.body.isSuccess = true ∨
      (∃ e, (updateTask s id b now).1 = errorHandler e) ∨
      ((updateTask s id b now).1.status = 400 ∧
        (updateTask s id b now).1.body.isZodIssues = true)) ∧
    (∀ (s : Store) (id : String),
      (deleteTask s id).1.body.isSuccess = true ∨
      ∃ e, (deleteTask s id).1 = errorHandler e) := by
  refine ⟨fun e => by cases e <;> rfl, ?_, ?_, ?_, ?_, ?_⟩
  · intro s id
    unfold getTask
    cases hc : getTaskCore s id with
    | error e => exact Or.inr ⟨e, rfl⟩
    | ok r =>
      left
      unfold getTaskCore at hc
      by_cases hu : uuidRegexTest id = true
      · rw [if_pos hu] at hc
        cases hdb : dbSelectById s id with
        | storageFailure => rw [hdb] at hc; cases hc
        | ok o =>
          rw [hdb] at hc
          cases o with
          | none => cases hc
          | some t => cases hc; rfl
      · rw [if_neg hu] at hc
        cases hc
  · intro s q
    unfold listTasks
    cases hq : parseQuery q with
    | error issues => exact Or.inr ⟨rfl, rfl⟩
    | ok qi => exact Or.inl rfl
  · intro s b newId now
    unfold createTask
    cases hp : parseCreate b with
    | error issues => exact Or.inr ⟨rfl, rfl⟩
    | ok input => exact Or.inl rfl
  · intro s id b now
    cases hp : parseUpdate b with
    | error issues =>
      refine Or.inr (Or.inr ?_)
      unfold updateTask
      rw [hp]
      exact ⟨rfl, rfl⟩
    | ok u =>
      have heq : updateTask s id b now
          = match updateTaskCore s id u now with
            | .ok rs => rs
            | .error e => (errorHandler e, s) := by
        unfold updateTask
        rw [hp]
      cases hc : updateTaskCore s id u now with
      | error e => exact Or.inr (Or.inl ⟨e, by rw [heq, hc]⟩)
      | ok rs =>
        left
        rw [heq, hc]
        unfold updateTaskCore at hc
        by_cases hk : (u.numKeys == 0) = true
        · rw [if_pos hk] at hc
          cases hc
        · rw [if_neg hk] at hc
          cases hdb : dbUpdate s id u now with
          | storageFailure => rw [hdb] at hc; cases hc
          | ok p =>
            rw [hdb] at hc
            obtain ⟨o, s2⟩ := p
            cases o with
            | none => cases hc
            | some t => cases hc; rfl
  · intro s id
    unfold deleteTask
    cases hc : deleteTaskCore s id with
    | error e => exact Or.inr ⟨e, rfl⟩
    | ok rs =>
      left
      unfold deleteTaskCore at hc
      cases hdb : dbDelete s id with
      | storageFailure => rw [hdb] at hc; cases hc
      | ok p =>
        rw [hdb] at hc
        obtain ⟨o, s2⟩ := p
        cases o with
        | none => cases hc
        | some t => cases hc; rfl

/-- C10: a body key other than `title`, `description`, `status` and
`priority` is silently discarded by both write endpoints — the request
behaves exactly as if the key were not supplied (it neither fails nor
influences the parsed input, the response, or the stored rows); since
`id`, `createdAt` and `updatedAt` are among such keys and the inserted
row takes them from the server, client-supplied values for
server-managed fields are never persisted. -/
theorem unknown_body_keys_ignored
    (k : String) (v : Json) (b : Body) (s : Store) (id newId : String)
    (now : Nat)
    (h1 : k ≠ "title") (h2 : k ≠ "description")
    (h3 : k ≠ "status") (h4 : k ≠ "priority") :
    createTask s ((k, v) :: b) newId now = createTask s b newId now ∧
    updateTask s id ((k, v) :: b) now = updateTask s id b now := by
  have hfind : ∀ key : String, k ≠ key →
      lookupKey ((k, v) :: b) key = lookupKey b key := by
    intro key hne
    unfold lookupKey
    simp only [List.find?, beq_eq_false_iff_ne.mpr hne]
  have ht := hfind "title" h1
  have hd := hfind "description" h2
  have hs := hfind "status" h3
  have hp := hfind "priority" h4
  have htr : parseTitleRequired ((k, v) :: b) = parseTitleRequired b := by
    unfold parseTitleRequired
    rw [ht]
  have hto : parseTitleOptional ((k, v) :: b) = parseTitleOptional b := by
    unfold parseTitleOptional
    rw [ht]
  have hdf : parseDescriptionField ((k, v) :: b) = parseDescriptionField b := by
    unfold parseDescriptionField
    rw [hd]
  have hsf : parseStatusField ((k, v) :: b) = parseStatusField b := by
    unfold parseStatusField
    rw [hs]
  have hpf : parsePriorityField ((k, v) :: b) = parsePriorityField b := by
    unfold parsePriorityField
    rw [hp]
  constructor
  · unfold createTask parseCreate
    rw [htr, hdf, hsf, hpf]
  · unfold updateTask parseUpdate
    rw [hto, hdf, hsf, hpf]

/-- Witness for C10: a client-supplied `id` key is discarded by both a
create and an update. -/
theorem unknown_body_keys_ignored_witness :
    createTask [sampleTask]
        [("id", Json.str "evil"), ("title", Json.str "Buy milk")]
        "22222222-2222-4222-8222-222222222222" 3
      = createTask [sampleTask] [("title", Json.str "Buy milk")]
          "22222222-2222-4222-8222-222222222222" 3 ∧
    updateTask [sampleTask] sampleTask.id
        [("id", Json.str "evil"), ("title", Json.str "Buy milk")] 3
      = updateTask [sampleTask] sampleTask.id
          [("title", Json.str "Buy milk")] 3 :=
  unknown_body_keys_ignored "id" (Json.str "evil")
    [("title", Json.str "Buy milk")] [sampleTask] sampleTask.id
    "22222222-2222-4222-8222-222222222222" 3
    (by decide) (by decide) (by decide) (by decide)

/-- C3: updating an existing task with a body supplying only `status`
preserves `title`, `description`, `priority` and `createdAt`, sets
`status` to the supplied value, applies no default to the absent fields,
and stamps `updatedAt` to the request time — strictly later than the
stored `updatedAt` whenever the clock has advanced past it. -/
theorem status_only_update_preserves_fields
    (s : Store) (t : Task) (v : Status) (now : Nat)
    (hfind : s.find? (fun x => x.id == t.id) = some t)
    (hid : uuidRegexTest t.id = true)
    (htime : t.updatedAt < now) :
    ∃ r, (updateTask s t.id (statusOnlyBody v) now).1 = ⟨200, .data r⟩ ∧
      r.title = t.title ∧ r.description = t.description ∧
      r.priority = t.priority ∧ r.createdAt = t.createdAt ∧
      r.status = v ∧ t.updatedAt < r.updatedAt := by
  have hparse : parseUpdate (statusOnlyBody v)
      = .ok ⟨none, none, some v, none⟩ := by
    cases v <;> rfl
  have hpg := pgUuidAccepts_of_uuidRegexTest hid
  refine ⟨applyUpdate ⟨none, none, some v, none⟩ now t,
    ?_, rfl, rfl, rfl, rfl, rfl, htime⟩
  have heq : updateTask s t.id (statusOnlyBody v) now
      = match updateTaskCore s t.id ⟨none, none, some v, none⟩ now with
        | .ok rs => rs
        | .error e => (errorHandler e, s) := by
    unfold updateTask
    rw [hparse]
  rw [heq]
  unfold updateTaskCore dbUpdate
  rw [hpg, hfind]
  rfl

/-- Witness for C3: marking the sample task done at time 1 keeps every
other field and bumps `updatedAt` from 0 to 1. -/
theorem status_only_update_preserves_fields_witness :
    ∃ r, (updateTask [sampleTask] sampleTask.id (statusOnlyBody .done) 1).1
        = ⟨200, .data r⟩ ∧
      r.title = sampleTask.title ∧ r.description = sampleTask.description ∧
      r.priority = sampleTask.priority ∧ r.createdAt = sampleTask.createdAt ∧
      r.status = .done ∧ sampleTask.updatedAt < r.updatedAt :=
  status_only_update_preserves_fields [sampleTask] sampleTask .done 1
    (by decide) (by decide) (by decide)

/-- C4: the dynamically composed where-clause of the list handler is
exactly the conjunction of the present filters — with both filters the
two predicates are combined with logical AND, with one filter that
single predicate is applied alone, and with none the rows pass
unfiltered; consequently every task of a successful list response
matches every present filter. -/
theorem filter_composition_is_conjunction :
    (∀ (st : Option Status) (pr : Option Priority) (rows : List Task),
      applyWhere (listConditions st pr) rows
        = rows.filter (matchesFilters st pr)) ∧
    (∀ (s : Store) (q : QueryParams) (qi : QueryInput) (t : Task),
      parseQuery q = .ok qi → t ∈ (listTasks s q).listData →
      matchesFilters qi.status qi.priority t = true) := by
  have hmain : ∀ (st : Option Status) (pr : Option Priority)
      (rows : List Task),
      applyWhere (listConditions st pr) rows
        = rows.filter (matchesFilters st pr) := by
    intro st pr rows
    cases st with
    | none =>
      cases pr with
      | none =>
        show rows = rows.filter (matchesFilters none none)
        symm
        exact List.filter_eq_self.mpr (fun a ha => rfl)
      | some w =>
        show rows.filter (fun t => t.priority == w)
            = rows.filter (matchesFilters none (some w))
        exact List.filter_congr (fun a ha => rfl)
    | some v =>
      cases pr with
      | none =>
        show rows.filter (fun t => t.status == v)
            = rows.filter (matchesFilters (some v) none)
        exact List.filter_congr (fun a ha => (Bool.and_true _).symm)
      | some w =>
        refine List.filter_congr (fun a ha => ?_)
        simp [matchesFilters, List.all_cons, List.all_nil, Bool.and_true]
  refine ⟨hmain, ?_⟩
  intro s q qi t hq ht
  unfold listTasks at ht
  rw [hq] at ht
  simp only [Response.listData] at ht
  have h1 : t ∈ applyWhere (listConditions qi.status qi.priority) s :=
    List.drop_subset _ _ (List.take_subset _ _ ht)
  rw [hmain] at h1
  exact List.of_mem_filter h1

/-- Witness for C4: with both filters present, a task with status
`todo` and priority `high` listed by the endpoint matches both. -/
theorem filter_composition_is_conjunction_witness :
    matchesFilters (some .todo) (some .high) sampleTask2 = true :=
  filter_composition_is_conjunction.2 [sampleTask2]
    ⟨some "todo", some "high", none, none⟩
    ⟨some .todo, some .high, 20, 0⟩ sampleTask2 rfl (by decide)

/-- C5: a limit outside the range 1–100, a non-integer or non-numeric
limit, a negative or non-integer or non-numeric offset are each rejected
with HTTP 400 by the validator, for every store state (hence before any
storage access); an absent limit defaults to 20 and an absent offset to
0; and the data array of a successful list response never holds more
than `limit` items. -/
theorem pagination_validation_and_bound :
    (∀ (s : Store) (stp prp : Option String) (off : Option JsNum) (n : Int),
      n < 1 ∨ 100 < n →
      (listTasks s ⟨stp, prp, some (.intVal n), off⟩).status = 400 ∧
      (listTasks s ⟨stp, prp, some (.intVal n), off⟩).body.isZodIssues
        = true) ∧
    (∀ (s : Store) (stp prp : Option String) (off : Option JsNum),
      (listTasks s ⟨stp, prp, some .nan, off⟩).status = 400 ∧
      (listTasks s ⟨stp, prp, some .nan, off⟩).body.isZodIssues = true) ∧
    (∀ (s : Store) (stp prp : Option String) (off : Option JsNum),
      (listTasks s ⟨stp, prp, some .nonIntVal, off⟩).status = 400 ∧
      (listTasks s ⟨stp, prp, some .nonIntVal, off⟩).body.isZodIssues
        = true) ∧
    (∀ (s : Store) (stp prp : Option String) (l : Option JsNum) (n : Int),
      n < 0 →
      (listTasks s ⟨stp, prp, l, some (.intVal n)⟩).status = 400 ∧
      (listTasks s ⟨stp, prp, l, some (.intVal n)⟩).body.isZodIssues
        = true) ∧
    (∀ (s : Store) (stp prp : Option String) (l : Option JsNum),
      (listTasks s ⟨stp, prp, l, some .nan⟩).status = 400 ∧
      (listTasks s ⟨stp, prp, l, some .nan⟩).body.isZodIssues = true) ∧
    (∀ (s : Store) (stp prp : Option String) (l : Option JsNum),
      (listTasks s ⟨stp, prp, l, some .nonIntVal⟩).status = 400 ∧
      (listTasks s ⟨stp, prp, l, some .nonIntVal⟩).body.isZodIssues
        = true) ∧
    (parseLimitParam none = .ok 20 ∧ parseOffsetParam none = .ok 0) ∧
    (∀ s : Store,
      listTasks s ⟨none, none, none, none⟩
        = ⟨200, .dataList (s.take 20) 20 0 (s.take 20).length⟩) ∧
    (∀ (s : Store) (q : QueryParams) (qi : QueryInput),
      parseQuery q = .ok qi →
      (listTasks s q).listData.length ≤ qi.limit.toNat) := by
  refine ⟨?_, ?_, ?_, ?_, ?_, ?_, ⟨rfl, rfl⟩, fun s => rfl, ?_⟩
  · intro s stp prp off n hn
    rcases hn with h | h
    · refine listTasks_limit_error s _
        "Number must be greater than or equal to 1" ?_
      simp only [parseLimitParam]
      rw [if_pos h]
    · refine listTasks_limit_error s _
        "Number must be less than or equal to 100" ?_
      simp only [parseLimitParam]
      rw [if_neg (show ¬n < 1 by omega), if_pos h]
  · intro s stp prp off
    exact listTasks_limit_error s _ "Expected number, received nan" rfl
  · intro s stp prp off
    exact listTasks_limit_error s _ "Expected integer, received float" rfl
  · intro s stp prp l n hn
    refine listTasks_offset_error s _
      "Number must be greater than or equal to 0" ?_
    simp only [parseOffsetParam]
    rw [if_pos hn]
  · intro s stp prp l
    exact listTasks_offset_error s _ "Expected number, received nan" rfl
  · intro s stp prp l
    exact listTasks_offset_error s _ "Expected integer, received float" rfl
  · intro s q qi hq
    unfold listTasks
    rw [hq]
    simp only [Response.listData]
    rw [List.length_take]
    exact min_le_left _ _

/-- Witness for C5: limit 0 and offset -1 are rejected on a nonempty
store; the default query on a two-row store returns at most the default
limit of 20 rows. -/
theorem pagination_validation_and_bound_witness :
    ((listTasks [sampleTask] ⟨none, none, some (.intVal 0), none⟩).status
        = 400 ∧
      (listTasks [sampleTask]
          ⟨none, none, some (.intVal 0), none⟩).body.isZodIssues = true) ∧
    ((listTasks [sampleTask] ⟨none, none, none, some (.intVal (-1))⟩).status
        = 400 ∧
      (listTasks [sampleTask]
          ⟨none, none, none, some (.intVal (-1))⟩).body.isZodIssues = true) ∧
    (listTasks [sampleTask, sampleTask2]
        ⟨none, none, none, none⟩).listData.length
      ≤ (20 : Int).toNat :=
  ⟨pagination_validation_and_bound.1 [sampleTask] none none none 0
     (Or.inl (by decide)),
   pagination_validation_and_bound.2.2.2.1 [sampleTask] none none none (-1)
     (by decide),
   pagination_validation_and_bound.2.2.2.2.2.2.2.2
     [sampleTask, sampleTask2] ⟨none, none, none, none⟩
     ⟨none, none, 20, 0⟩ rfl⟩

/-- C9: deletion is terminal — on a well-formed store (ids are
server-generated uuid-v4 strings), once a delete succeeds with 200 and
the row's last state, a subsequent get of the same id and a subsequent
delete of the same id against the resulting store both answer 404
`TASK_NOT_FOUND`, and the second delete leaves the store unchanged. -/
theorem delete_is_terminal (s s2 : Store) (id : String) (t : Task)
    (hwf : WfStore s)
    (hdel : deleteTask s id = (⟨200, .data t⟩, s2)) :
    getTask s2 id = ⟨404, .errEnvelope ⟨"Task not found", "TASK_NOT_FOUND"⟩⟩ ∧
    deleteTask s2 id
      = (⟨404, .errEnvelope ⟨"Task not found", "TASK_NOT_FOUND"⟩⟩, s2) := by
  by_cases hpg : pgUuidAccepts id = true
  case neg =>
    exfalso
    unfold deleteTask deleteTaskCore dbDelete at hdel
    rw [if_neg hpg] at hdel
    have hbad : (500 : Nat) = 200 := congrArg (fun p => p.1.status) hdel
    exact absurd hbad (by decide)
  case pos =>
    unfold deleteTask deleteTaskCore dbDelete at hdel
    rw [if_pos hpg] at hdel
    cases hf : s.find? (fun x => x.id == id) with
    | none =>
      rw [hf] at hdel
      have hbad : (404 : Nat) = 200 := congrArg (fun p => p.1.status) hdel
      exact absurd hbad (by decide)
    | some t' =>
      rw [hf] at hdel
      have hs2 : s2 = s.filter (fun x => !(x.id == id)) :=
        (congrArg Prod.snd hdel).symm
      have hb := List.find?_some hf
      have hb' : (t'.id == id) = true := hb
      have htid : t'.id = id := eq_of_beq hb'
      have huv : uuidRegexTest id = true := by
        rw [← htid]
        exact hwf t' (List.mem_of_find?_eq_some hf)
      constructor
      · unfold getTask getTaskCore dbSelectById
        rw [if_pos huv, if_pos (pgUuidAccepts_of_uuidRegexTest huv), hs2,
          find?_id_filter_out]
        rfl
      · unfold deleteTask deleteTaskCore dbDelete
        rw [if_pos hpg, hs2, find?_id_filter_out]
        rfl

/-- Witness for C9: deleting the sample task empties the store; the
same id then gets and deletes to 404 `TASK_NOT_FOUND`. -/
theorem delete_is_terminal_witness :
    getTask [] "aaaaaaaa-aaaa-4aaa-8aaa-aaaaaaaaaaaa"
      = ⟨404, .errEnvelope ⟨"Task not found", "TASK_NOT_FOUND"⟩⟩ ∧
    deleteTask [] "aaaaaaaa-aaaa-4aaa-8aaa-aaaaaaaaaaaa"
      = (⟨404, .errEnvelope ⟨"Task not found", "TASK_NOT_FOUND"⟩⟩, []) :=
  delete_is_terminal [sampleTask] [] "aaaaaaaa-aaaa-4aaa-8aaa-aaaaaaaaaaaa"
    sampleTask
    (fun x hx => by rw [List.mem_singleton] at hx; subst hx; decide)
    (by decide)

end TasksApi
